import Mathlib

/-!
Shallow embedding of the potpie intelligence modules
`app/modules/intelligence/agents/agents/low_level_design_agent.py`,
`app/modules/intelligence/agents/agents/unit_test_agent.py` and
`app/modules/intelligence/provider/provider_router.py`.

Python lines are modelled as `List Char` where character-level operations
matter and as `String` elsewhere; environment variables as `Option String`;
the crewai `Agent`, `Task` and `Crew` constructor calls as records of the
keyword arguments the source passes (tools are identified by the name of the
tool-factory function that produced them; free-text backstory/description
fields that no claim depends on are omitted).
-/

namespace Potpie

/-! ### Streaming bridge of `LowLevelDesignAgent.run` -/

/-- Boolean substring test, modelling the Python `pat in line` membership
test on strings: true when `pat` occurs contiguously in the list. -/
def containsSub (pat : List Char) : List Char → Bool
  | [] => pat.isEmpty
  | c :: rest => pat.isPrefixOf (c :: rest) || containsSub pat rest

/-- The literal marker `"## Final Answer:"` that flips the
`final_answer_streaming` flag in `LowLevelDesignAgent.run`. -/
def finalAnswerMarker : List Char := "## Final Answer:".data

/-- The trailing ANSI reset escape sequence plus newline, `"\x1b[00m\n"`
(6 characters), stripped from post-marker lines that end with it. -/
def ansiResetSuffix : List Char := "\x1b[00m\n".data

/-- `"## Final Answer:" in line`. -/
def containsMarker (line : List Char) : Bool := containsSub finalAnswerMarker line

/-- What `run` yields for one line once the flag is set: `line[:-6]` when
`line.endswith("\x1b[00m\n")`, the line unchanged otherwise. -/
def emitLine (line : List Char) : List Char :=
  if ansiResetSuffix.isSuffixOf line then line.take (line.length - 6) else line

/-- The line loop of `LowLevelDesignAgent.run`, carrying the
`final_answer_streaming` flag. Mirrors the Python body line by line:
stop on an empty line (`if not line: break`); when the flag is already set,
yield the (possibly suffix-stripped) line; then set the flag if the line
contains the marker. -/
def runFrom : Bool → List (List Char) → List (List Char)
  | _, [] => []
  | flag, line :: rest =>
    if line.isEmpty then []
    else
      (if flag then [emitLine line] else [])
        ++ runFrom (flag || containsMarker line) rest

/-- `LowLevelDesignAgent.run` viewed as a function from the sequence of lines
the executor writes into the pipe to the sequence of chunks yielded to the
caller; the flag starts false. -/
def run (lines : List (List Char)) : List (List Char) := runFrom false lines

/-- `run` on whole strings. -/
def runS (lines : List String) : List String :=
  (run (lines.map String.data)).map String.mk

/-! ### Pydantic models of `low_level_design_agent.py` / `unit_test_agent.py` -/

/-- `DesignStep(BaseModel)`: four required fields, no validators. -/
structure DesignStep where
  step_number : Int
  description : String
  relevant_files : List String
  code_changes : List (String × String)
deriving DecidableEq

/-- `LowLevelDesignPlan(BaseModel)`: four required fields, no validators. -/
structure LowLevelDesignPlan where
  feature_name : String
  overview : String
  design_steps : List DesignStep
  potential_challenges : List String
deriving DecidableEq

/-- `UnitTestAgent.TestAgentResponse(BaseModel)`. -/
structure TestAgentResponse where
  response : String
  citations : List String
deriving DecidableEq

/-- JSON-like values, enough to state what pydantic validation of the two
models accepts. -/
inductive JsonValue where
  | str : String → JsonValue
  | int : Int → JsonValue
  | arr : List JsonValue → JsonValue
  | obj : List (String × JsonValue) → JsonValue

/-- Read a JSON value as a string. -/
def asStr : JsonValue → Option String
  | .str s => some s
  | _ => none

/-- Read a JSON value as an integer. -/
def asInt : JsonValue → Option Int
  | .int n => some n
  | _ => none

/-- Read a JSON value as a list of strings (`List[str]`). -/
def asStrList : JsonValue → Option (List String)
  | .arr xs => xs.mapM asStr
  | _ => none

/-- Read a JSON value as a string-to-string mapping (`Dict[str, str]`). -/
def asStrMap : JsonValue → Option (List (String × String))
  | .obj kvs => kvs.mapM (fun kv => (asStr kv.2).map (fun s => (kv.1, s)))
  | _ => none

/-- Pydantic validation of `DesignStep` as declared in the source: the four
required fields with their declared types. The model declares no extra
validators, so nothing else is checked. -/
def validateDesignStep (v : JsonValue) : Option DesignStep :=
  match v with
  | .obj fields => do
    let n ← (fields.lookup "step_number").bind asInt
    let d ← (fields.lookup "description").bind asStr
    let rf ← (fields.lookup "relevant_files").bind asStrList
    let cc ← (fields.lookup "code_changes").bind asStrMap
    pure ⟨n, d, rf, cc⟩
  | _ => none

/-- Pydantic validation of `LowLevelDesignPlan` as declared in the source:
the four required fields with their declared types, the steps validated
element-wise by `validateDesignStep`. No other constraint is declared. -/
def validateLowLevelDesignPlan (v : JsonValue) : Option LowLevelDesignPlan :=
  match v with
  | .obj fields => do
    let fn ← (fields.lookup "feature_name").bind asStr
    let ov ← (fields.lookup "overview").bind asStr
    let steps ← match fields.lookup "design_steps" with
      | some (.arr xs) => xs.mapM validateDesignStep
      | _ => none
    let pc ← (fields.lookup "potential_challenges").bind asStrList
    pure ⟨fn, ov, steps, pc⟩
  | _ => none

/-- The step numbers of a plan accepted by validation, `none` when
validation rejects the value. -/
def acceptedStepNumbers (v : JsonValue) : Option (List Int) :=
  (validateLowLevelDesignPlan v).map
    (fun p => p.design_steps.map DesignStep.step_number)

/-- Strictly-increasing test on a list of integers. This is the property the
spec asserts of accepted design plans (written from the spec sentence, to be
compared with what validation actually checks); it implies pairwise
distinctness. -/
def strictlyIncreasingB : List Int → Bool
  | [] => true
  | [_] => true
  | a :: b :: rest => (decide (a < b)) && strictlyIncreasingB (b :: rest)

/-- A design-plan JSON object whose two steps carry the given step numbers;
all other fields are well-typed constants. -/
def twoStepPlanJson (n₁ n₂ : Int) : JsonValue :=
  .obj [("feature_name", .str "f"), ("overview", .str "o"),
        ("design_steps", .arr
          [.obj [("step_number", .int n₁), ("description", .str "a"),
                 ("relevant_files", .arr []), ("code_changes", .obj [])],
           .obj [("step_number", .int n₂), ("description", .str "b"),
                 ("relevant_files", .arr []), ("code_changes", .obj [])]]),
        ("potential_challenges", .arr [])]

/-! ### Environment and agent construction -/

/-- The environment variables the two agent classes consult. -/
structure Env where
  FIRECRAWL_API_KEY : Option String
  GITHUB_APP_ID : Option String
  MAX_ITER : Option String
deriving DecidableEq

/-- A Python value that is either an `int` or a `str`. -/
inductive PyValue where
  | intVal : Int → PyValue
  | strVal : String → PyValue
deriving DecidableEq

/-- Decimal digits to a natural number; `none` when the list is empty or
holds a non-digit. -/
def digitsToNat (cs : List Char) : Option Nat :=
  if cs.isEmpty then none
  else if cs.all Char.isDigit then
    some (cs.foldl (fun n c => n * 10 + (c.toNat - 48)) 0)
  else none

/-- Python `int()` applied to a string: an optional leading minus sign
followed by decimal digits; `none` models the raised `ValueError`
(surrounding whitespace, `+` signs and underscore separators, which `int()`
also tolerates, are not modelled — no claim depends on them). -/
def pyIntOfString (s : String) : Option Int :=
  match s.data with
  | '-' :: rest => (digitsToNat rest).map (fun n => -(n : Int))
  | cs => (digitsToNat cs).map (fun n => (n : Int))

/-- `int(os.getenv("MAX_ITER", 10))` in `LowLevelDesignAgent.__init__`:
the int default 10 when the variable is unset, otherwise Python `int()` of
the string. -/
def lld_max_iter (max_iter_env : Option String) : Option Int :=
  match max_iter_env with
  | none => some 10
  | some s => pyIntOfString s

/-- `os.getenv("MAX_ITER", 15)` in `UnitTestAgent.__init__`: the int default
15 when the variable is unset, otherwise the raw environment string — the
source applies no `int()` conversion here. -/
def unit_test_max_iterations (max_iter_env : Option String) : PyValue :=
  match max_iter_env with
  | none => .intVal 15
  | some s => .strVal s

/-- Python truthiness of an `os.getenv` result, as tested by
`if os.getenv("FIRECRAWL_API_KEY"):` and `if os.getenv("GITHUB_APP_ID"):`
in both `__init__`s — false when the variable is unset and also when it is
set to the empty string. -/
def envTruthy (v : Option String) : Bool :=
  match v with
  | none => false
  | some s => !s.data.isEmpty

/-- The attributes of a constructed `LowLevelDesignAgent` that the claims
depend on: the converted iteration budget and which optional tool
attributes were set. -/
structure LLDState where
  max_iter : Int
  has_webpage_extractor : Bool
  has_github : Bool
deriving DecidableEq

/-- `LowLevelDesignAgent.__init__`: reads `MAX_ITER` through `int()`
(`none` models the raised `ValueError`), and sets the optional
`webpage_extractor_tool` / `github_tool` attributes exactly when
`FIRECRAWL_API_KEY` / `GITHUB_APP_ID` are truthy — set to a non-empty
string. -/
def LLD_init (env : Env) : Option LLDState :=
  (lld_max_iter env.MAX_ITER).map
    (fun m => ⟨m, envTruthy env.FIRECRAWL_API_KEY, envTruthy env.GITHUB_APP_ID⟩)

/-- The attributes of a constructed `UnitTestAgent` that the claims depend
on. Construction never fails: no conversion is applied to `MAX_ITER`. -/
structure UTState where
  max_iterations : PyValue
  has_webpage_extractor : Bool
  has_github : Bool
deriving DecidableEq

/-- `UnitTestAgent.__init__`: the optional tool attributes are set exactly
when the corresponding variable is truthy — set to a non-empty string. -/
def UT_init (env : Env) : UTState :=
  ⟨unit_test_max_iterations env.MAX_ITER,
   envTruthy env.FIRECRAWL_API_KEY, envTruthy env.GITHUB_APP_ID⟩

/-- A crewai `Agent(...)` call: the keyword arguments the source passes
(backstory omitted; tools identified by tool-factory name; `max_iter` is
`none` when the source passes no `max_iter` argument). -/
structure Agent where
  role : String
  goal : String
  tools : List String
  allow_delegation : Bool
  verbose : Bool
  max_iter : Option PyValue
deriving DecidableEq

/-- The `codebase_analyst` agent built in
`LowLevelDesignAgent.create_agents`: five base tools plus the optional
webpage-extractor and github tools via the `hasattr` checks, delegation
disallowed, `max_iter` from the converted environment value. -/
def codebase_analyst (st : LLDState) : Agent :=
  ⟨"Codebase Analyst",
   "Analyze the existing codebase and provide insights on the current structure and patterns",
   ["get_nodes_from_tags", "ask_knowledge_graph_queries", "get_code_from_node_id",
    "get_code_from_probable_node_name", "get_code_file_structure"]
     ++ (if st.has_webpage_extractor then ["webpage_extractor_tool"] else [])
     ++ (if st.has_github then ["github_tool"] else []),
   false, true, some (.intVal st.max_iter)⟩

/-- The `design_planner` agent built in `LowLevelDesignAgent.create_agents`:
a fixed six-tool list ending with the node-neighbour lookup, delegation
allowed, and no `max_iter` argument. -/
def design_planner (_st : LLDState) : Agent :=
  ⟨"Design Planner",
   "Create a detailed low-level design plan for implementing new features",
   ["get_nodes_from_tags", "ask_knowledge_graph_queries", "get_code_from_node_id",
    "get_code_from_probable_node_name", "get_code_file_structure",
    "get_node_neighbours_from_node_id"],
   true, true, none⟩

/-- The single agent built in `UnitTestAgent.create_agents`: two base tools
plus the optional tools via the `hasattr` checks, delegation disallowed,
`max_iter` the unconverted `max_iterations` value. -/
def unit_test_expert (st : UTState) : Agent :=
  ⟨"Test Plan and Unit Test Expert",
   "Create test plans and write unit tests based on user requirements",
   ["get_code_from_node_id", "get_code_from_probable_node_name"]
     ++ (if st.has_webpage_extractor then ["webpage_extractor_tool"] else [])
     ++ (if st.has_github then ["github_tool"] else []),
   false, true, some st.max_iterations⟩

/-- The structured output schemas that appear in the two modules. -/
inductive OutputSchema where
  | lowLevelDesignPlan
  | testAgentResponse
deriving DecidableEq

/-- A crewai `Task(...)` call: the assigned agent (by role), the
`expected_output` text, the `context` task list (by name), the
`output_pydantic` schema when one is passed, and `async_execution`
(false when the source passes no such argument). Description prose is
omitted. -/
structure Task where
  agent : String
  expected_output : String
  context : List String
  output_pydantic : Option OutputSchema
  async_execution : Bool
deriving DecidableEq

/-- `analyze_codebase_task` in `LowLevelDesignAgent.create_tasks`: no
context, no `output_pydantic`, no `async_execution`. -/
def analyze_codebase_task : Task :=
  ⟨"Codebase Analyst",
   "Codebase analysis report with insights on project structure and patterns",
   [], none, false⟩

/-- `create_design_plan_task` in `LowLevelDesignAgent.create_tasks`: context
is the analysis task; the source passes no `output_pydantic` argument (the
`LowLevelDesignPlan` schema is only requested in the description prose). -/
def create_design_plan_task : Task :=
  ⟨"Design Planner",
   "Low-level design plan for implementing the new feature",
   ["analyze_codebase_task"], none, false⟩

/-- `unit_test_task` in `UnitTestAgent.create_tasks`:
`output_pydantic=self.TestAgentResponse`, `async_execution=True`. -/
def unit_test_task : Task :=
  ⟨"Test Plan and Unit Test Expert",
   "Outline the test plan and write unit tests for each node based on the test plan.",
   [], some OutputSchema.testAgentResponse, true⟩

/-- The task list returned by `LowLevelDesignAgent.create_tasks`. -/
def design_create_tasks : List Task := [analyze_codebase_task, create_design_plan_task]

/-- Execution process of a crewai `Crew`. -/
inductive CrewProcess where
  | sequential
  | hierarchical
deriving DecidableEq

/-- A crewai `Crew(...)` call: agents by role, tasks, process. -/
structure Crew where
  agents : List String
  tasks : List Task
  process : CrewProcess
deriving DecidableEq

/-- The crew built inside `LowLevelDesignAgent.run`. -/
def design_crew : Crew :=
  ⟨["Codebase Analyst", "Design Planner"], design_create_tasks, CrewProcess.sequential⟩

/-- The crew built inside `UnitTestAgent.run`. -/
def unit_test_crew : Crew :=
  ⟨["Test Plan and Unit Test Expert"], [unit_test_task], CrewProcess.sequential⟩

/-! ### `kickoff_unit_test_agent` -/

/-- `NodeContext`: only its `node_id` field is consumed by this module. -/
structure NodeContext where
  node_id : String
deriving DecidableEq

/-- The fixed error dictionary `kickoff_unit_test_agent` returns when no
node ids are provided. -/
def unitTestErrorPayload : List (String × String) :=
  [("error", "No function name is provided by the user. The agent cannot generate test plan or test code without specific class or function being selected by the user. Request the user to use the \x27@ followed by file or function name\x27 feature to link individual functions to the message. ")]

/-- `kickoff_unit_test_agent`, with everything past the `if not node_ids`
guard (provider-service construction, LLM lookup, `UnitTestAgent`
construction and `UnitTestAgent.run`) abstracted as `executor`. The second
component of the result records every executor invocation with the argument
tuple passed to `UnitTestAgent.run`, so an empty trace means the guard
returned before anything downstream was constructed or invoked. -/
def kickoff_unit_test_agent
    (query chat_history project_id : String) (node_ids : List NodeContext)
    (executor : String → List NodeContext → String → String → List (String × String)) :
    List (String × String) × List (String × List NodeContext × String × String) :=
  if node_ids.isEmpty then (unitTestErrorPayload, [])
  else (executor project_id node_ids query chat_history,
        [(project_id, node_ids, query, chat_history)])

/-! ### `provider_router.py` -/

/-- Module-level `litellm_provider = os.getenv("LITELLM_PROVIDER")`, read
once at import time. -/
def litellm_provider (env_LITELLM_PROVIDER : Option String) : Option String :=
  env_LITELLM_PROVIDER

/-- `SetProviderRequest`: the request body of the set-provider endpoint. -/
structure SetProviderRequest where
  provider : String
deriving DecidableEq

/-- The argument pair `ProviderAPI.set_global_ai_provider` passes to
`ProviderController.set_global_ai_provider`: the authenticated user id and
the module-level `litellm_provider`; the `provider_request` body is bound
but never consulted. -/
def set_global_ai_provider_args (env_LITELLM_PROVIDER : Option String)
    (user_id : String) (provider_request : SetProviderRequest) :
    String × Option String :=
  (user_id, litellm_provider env_LITELLM_PROVIDER)

/-! ### Helper lemmas on the streaming bridge -/

/-- Once the flag is set, every remaining line is yielded through `emitLine`
(assuming no empty line, which would end the loop). -/
theorem runFrom_true_eq_map (lines : List (List Char)) (h : ∀ l ∈ lines, l ≠ []) :
    runFrom true lines = lines.map emitLine := by
  induction lines with
  | nil => rfl
  | cons line rest ih =>
    have hline : line ≠ [] := h line (List.mem_cons_self _ _)
    have hrest : ∀ l ∈ rest, l ≠ [] := fun l hl => h l (List.mem_cons_of_mem _ hl)
    cases line with
    | nil => exact absurd rfl hline
    | cons c cs => simp [runFrom, ih hrest]

/-- With the flag initially clear, the bridge output is exactly the lines
strictly after the first marker line, each passed through `emitLine`. -/
theorem runFrom_false_eq (lines : List (List Char)) (h : ∀ l ∈ lines, l ≠ []) :
    runFrom false lines =
      ((lines.dropWhile (fun l => !containsMarker l)).drop 1).map emitLine := by
  induction lines with
  | nil => rfl
  | cons line rest ih =>
    have hline : line ≠ [] := h line (List.mem_cons_self _ _)
    have hrest : ∀ l ∈ rest, l ≠ [] := fun l hl => h l (List.mem_cons_of_mem _ hl)
    cases line with
    | nil => exact absurd rfl hline
    | cons c cs =>
      cases hm : containsMarker (c :: cs) with
      | false => simp [runFrom, hm, List.dropWhile_cons, ih hrest]
      | true => simp [runFrom, hm, List.dropWhile_cons, runFrom_true_eq_map rest hrest]

/-- `dropWhile` crosses a whole prefix on which the predicate holds. -/
theorem dropWhile_append_of_forall {α : Type} (p : α → Bool) (l₁ l₂ : List α)
    (h : ∀ a ∈ l₁, p a = true) :
    (l₁ ++ l₂).dropWhile p = l₂.dropWhile p := by
  induction l₁ with
  | nil => rfl
  | cons a as ih =>
    simp [List.dropWhile_cons, h a (List.mem_cons_self _ _),
      ih (fun x hx => h x (List.mem_cons_of_mem _ hx))]

/-! ### Claim theorems -/

/-- C1: for every line sequence the executor produces (line iteration yields
no empty line), the bridge yields exactly the lines strictly after the first
line containing `"## Final Answer:"`, each passed through `emitLine` — so
nothing before the first marker line is yielded, the marker line itself is
not yielded, and each later line is yielded verbatim except that a line
ending with the 6-character suffix `"\x1b[00m\n"` loses exactly those last
6 characters. -/
theorem run_final_answer_bridge (lines : List (List Char))
    (h : ∀ l ∈ lines, l ≠ []) :
    run lines =
      ((lines.dropWhile (fun l => !containsMarker l)).drop 1).map emitLine :=
  runFrom_false_eq lines h

/-- Witness for C1 at a concrete five-line sequence. -/
theorem run_final_answer_bridge_witness :
    (∀ l ∈ ["a\n", "b\n", "x ## Final Answer: y\n", "tail\x1b[00m\n", "end\n"].map String.data,
      l ≠ []) ∧
    run (["a\n", "b\n", "x ## Final Answer: y\n", "tail\x1b[00m\n", "end\n"].map String.data) =
      (((["a\n", "b\n", "x ## Final Answer: y\n", "tail\x1b[00m\n", "end\n"].map String.data).dropWhile
        (fun l => !containsMarker l)).drop 1).map emitLine :=
  ⟨by decide, run_final_answer_bridge _ (by decide)⟩

/-- C2: on the producer lines `"part1\n"`, `"## Final Answer:\n"`,
`"hello\x1b[00m\n"`, `"world\n"`, the bridge yields exactly the chunks
`"hello"` and `"world\n"`, in that order, and nothing else. -/
theorem run_concrete_four_lines :
    runS ["part1\n", "## Final Answer:\n", "hello\x1b[00m\n", "world\n"] =
      ["hello", "world\n"] := by decide

/-- C3: `kickoff_unit_test_agent` with an empty `node_ids` list returns the
fixed error payload with an empty executor trace (nothing downstream is
constructed or invoked); with a non-empty list the executor is invoked once
with exactly the given arguments and its result is returned unchanged. -/
theorem kickoff_empty_node_ids_guard (query chat_history project_id : String)
    (executor : String → List NodeContext → String → String → List (String × String)) :
    kickoff_unit_test_agent query chat_history project_id [] executor =
      (unitTestErrorPayload, []) ∧
    (∀ n rest,
      kickoff_unit_test_agent query chat_history project_id (n :: rest) executor =
        (executor project_id (n :: rest) query chat_history,
         [(project_id, n :: rest, query, chat_history)])) :=
  ⟨rfl, fun _ _ => rfl⟩

/-- C4 counterexample: the design pipeline's final task
`create_design_plan_task` is constructed with no `output_pydantic` argument,
so its declared output type is not `LowLevelDesignPlan` as the claim
states. -/
theorem design_plan_task_schema_not_declared :
    (create_design_plan_task.output_pydantic == some OutputSchema.lowLevelDesignPlan) = false ∧
    create_design_plan_task.output_pydantic = none := by decide

/-- C4 amended: only the test pipeline's final task declares its structured
output schema — `unit_test_task` carries `output_pydantic=TestAgentResponse`
— while the design pipeline's `create_design_plan_task` declares none (the
`LowLevelDesignPlan` schema is requested only in description prose). -/
theorem final_task_output_schemas :
    unit_test_task.output_pydantic = some OutputSchema.testAgentResponse ∧
    unit_test_crew.tasks = [unit_test_task] ∧
    create_design_plan_task.output_pydantic = none := by decide

/-- C5 counterexample: a design plan whose two steps both carry step number
2 — neither pairwise distinct nor strictly increasing — is accepted by the
declared validation, so violations are not rejected as the claim states. -/
theorem plan_validation_accepts_unordered_steps :
    acceptedStepNumbers (twoStepPlanJson 2 2) = some [2, 2] ∧
    strictlyIncreasingB [2, 2] = false := by decide

/-- C5 amended: validation of `LowLevelDesignPlan` checks only field
presence and types; it never inspects the step numbers, so a two-step plan
is accepted whatever its step numbers are — duplicates and decreasing
orders included. -/
theorem plan_validation_ignores_step_order (n₁ n₂ : Int) :
    acceptedStepNumbers (twoStepPlanJson n₁ n₂) = some [n₁, n₂] := rfl

/-- C6 (code bug): with `MAX_ITER` set (e.g. to `"20"`),
`UnitTestAgent.__init__` stores the raw environment string with no `int()`
conversion, so the Unit Test Expert's iteration budget is the string
`"20"`, not an integer — unlike `LowLevelDesignAgent`, which converts the
same variable with `int()`. When `MAX_ITER` is unset the default 15 is an
int. -/
theorem unit_test_budget_is_raw_string :
    unit_test_max_iterations (some "20") = PyValue.strVal "20" ∧
    (unit_test_expert (UT_init ⟨none, none, some "20"⟩)).max_iter =
      some (PyValue.strVal "20") ∧
    lld_max_iter (some "20") = some 20 ∧
    unit_test_max_iterations none = PyValue.intVal 15 := ⟨rfl, rfl, rfl, rfl⟩

/-- C7 counterexample: with `FIRECRAWL_API_KEY` and `GITHUB_APP_ID` both
set to the empty string — set variables, but falsy under Python's
`if os.getenv(...)` test — construction succeeds yet both adapters are
omitted from the Codebase Analyst's and the Unit Test Expert's tool lists,
refuting the claimed iff with plain set-ness. -/
theorem empty_string_env_omits_adapters :
    LLD_init ⟨some "", some "", none⟩ = some ⟨10, false, false⟩ ∧
    (codebase_analyst ⟨10, false, false⟩).tools.contains "webpage_extractor_tool" = false ∧
    (codebase_analyst ⟨10, false, false⟩).tools.contains "github_tool" = false ∧
    (unit_test_expert (UT_init ⟨some "", some "", none⟩)).tools.contains
      "webpage_extractor_tool" = false ∧
    (unit_test_expert (UT_init ⟨some "", some "", none⟩)).tools.contains
      "github_tool" = false := by decide

/-- C7 amended: for every value (absent, empty or non-empty) of
`FIRECRAWL_API_KEY` and `GITHUB_APP_ID` (with `MAX_ITER` unset),
construction of both agent classes succeeds, and the webpage-extractor
(resp. github) adapter appears in the Codebase Analyst's and the Unit Test
Expert's tool lists exactly when the corresponding variable is truthy —
set to a non-empty string. -/
theorem optional_adapters_iff_truthy_env (f g : Option String) :
    LLD_init ⟨f, g, none⟩ = some ⟨10, envTruthy f, envTruthy g⟩ ∧
    UT_init ⟨f, g, none⟩ = ⟨PyValue.intVal 15, envTruthy f, envTruthy g⟩ ∧
    (codebase_analyst ⟨10, envTruthy f, envTruthy g⟩).tools.contains "webpage_extractor_tool"
      = envTruthy f ∧
    (codebase_analyst ⟨10, envTruthy f, envTruthy g⟩).tools.contains "github_tool"
      = envTruthy g ∧
    (unit_test_expert ⟨PyValue.intVal 15, envTruthy f, envTruthy g⟩).tools.contains
      "webpage_extractor_tool" = envTruthy f ∧
    (unit_test_expert ⟨PyValue.intVal 15, envTruthy f, envTruthy g⟩).tools.contains
      "github_tool" = envTruthy g := by
  refine ⟨rfl, rfl, ?_, ?_, ?_, ?_⟩ <;>
    cases envTruthy f <;> cases envTruthy g <;> rfl

/-- C8: in the design pipeline the Codebase Analyst disallows delegation,
the Design Planner allows it, only the Design Planner's tool list contains
the node-neighbour-lookup adapter, and the two tasks form a sequential
two-task crew in which the design-plan task's context is exactly the
analysis task. -/
theorem design_pipeline_structure (m : Int) (w g : Bool) :
    (codebase_analyst ⟨m, w, g⟩).allow_delegation = false ∧
    (design_planner ⟨m, w, g⟩).allow_delegation = true ∧
    (design_planner ⟨m, w, g⟩).tools.contains "get_node_neighbours_from_node_id" = true ∧
    (codebase_analyst ⟨m, w, g⟩).tools.contains "get_node_neighbours_from_node_id" = false ∧
    design_create_tasks = [analyze_codebase_task, create_design_plan_task] ∧
    create_design_plan_task.context = ["analyze_codebase_task"] ∧
    analyze_codebase_task.context = ([] : List String) ∧
    design_crew.tasks = design_create_tasks ∧
    design_crew.process = CrewProcess.sequential := by
  cases w <;> cases g <;>
    exact ⟨rfl, rfl, rfl, rfl, rfl, rfl, rfl, rfl, rfl⟩

/-- C9: the final-answer flag is monotone — writing the line list as a
prefix with no marker, the first marker line, and the remainder, exactly
the prefix and that first marker line are withheld, and every later line
(marker-containing or not) is yielded through `emitLine`. -/
theorem final_flag_monotone (pre : List (List Char)) (line : List Char)
    (post : List (List Char))
    (hpre : ∀ l ∈ pre, containsMarker l = false)
    (hline : containsMarker line = true)
    (hne : ∀ l ∈ pre ++ line :: post, l ≠ []) :
    run (pre ++ line :: post) = post.map emitLine := by
  have h2 : (pre ++ line :: post).dropWhile (fun l => !containsMarker l)
      = line :: post := by
    rw [dropWhile_append_of_forall _ pre _ (fun l hl => by simp [hpre l hl])]
    simp [List.dropWhile_cons, hline]
  calc run (pre ++ line :: post)
      = (((pre ++ line :: post).dropWhile (fun l => !containsMarker l)).drop 1).map emitLine :=
        runFrom_false_eq _ hne
    _ = ((line :: post).drop 1).map emitLine := by rw [h2]
    _ = post.map emitLine := rfl

/-- Witness for C9: the second marker-containing line is yielded like any
other post-marker line. -/
theorem final_flag_monotone_witness :
    (∀ l ∈ ["thinking\n".data], containsMarker l = false) ∧
    containsMarker "## Final Answer:\n".data = true ∧
    (∀ l ∈ ["thinking\n".data] ++ "## Final Answer:\n".data ::
        ["also ## Final Answer: here\n".data, "done\n".data], l ≠ []) ∧
    run (["thinking\n".data] ++ "## Final Answer:\n".data ::
        ["also ## Final Answer: here\n".data, "done\n".data]) =
      (["also ## Final Answer: here\n".data, "done\n".data]).map emitLine :=
  ⟨by decide, by decide, by decide,
   final_flag_monotone _ _ _ (by decide) (by decide) (by decide)⟩

/-- C10: the set-global-ai-provider endpoint passes the same
`(user_id, litellm_provider)` pair to the controller whatever the request
body says: two requests by the same user differing only in their
`SetProviderRequest` payload produce identical controller calls, carrying
the module-level `LITELLM_PROVIDER` value. -/
theorem set_provider_ignores_request_body (env_LITELLM_PROVIDER : Option String)
    (user_id : String) (r₁ r₂ : SetProviderRequest) :
    set_global_ai_provider_args env_LITELLM_PROVIDER user_id r₁ =
      set_global_ai_provider_args env_LITELLM_PROVIDER user_id r₂ ∧
    set_global_ai_provider_args env_LITELLM_PROVIDER user_id r₁ =
      (user_id, litellm_provider env_LITELLM_PROVIDER) :=
  ⟨rfl, rfl⟩

end Potpie
